import Mathlib

/-!
Shallow embedding of the session store in `src/contexts/AuthContext.tsx`
(the file under `src/unnamed/part_000` is an earlier revision of the same
component with identical state logic).

The store's state fields are the four `useState` hooks (lines 33-36).
Remote calls are modelled by passing their outcome as an explicit argument
(the environment's response), and the remote writes an operation issues are
collected in a list so that "performs no remote call" is expressible.
-/

namespace AuthCtx

/-- The authenticated principal (`User` from the provider); only its `id`
field is read by this component (lines 59, 79, 214, 231). -/
structure User where
  id : String
deriving Repr, DecidableEq

/-- The credential bundle (`Session`); the component only reads
`session.user`, via optional chaining (`session?.user`), so the field is
modelled as optional. -/
structure Session where
  user : Option User
deriving Repr, DecidableEq

/-- `UserProfile` from `../types/Tool` as consumed here: the shape built at
lines 116-124 and inserted at lines 156-165. -/
structure UserProfile where
  username : String
  email : String
  phone : String
  job : String
  interests : List String
  favorites : List String
  isPaid : Bool
deriving Repr, DecidableEq

/-- A row of the remote `user_profiles` table as the select at lines 97-101
returns it; columns that the mapping code guards with `|| default`
(lines 119, 121-123) are modelled as nullable. -/
structure ProfileRow where
  user_id : String
  username : String
  email : String
  phone : Option String
  job : String
  interests : Option (List String)
  favorites : Option (List String)
  is_paid : Option Bool
deriving Repr, DecidableEq

/-- An error object returned by the remote service; the component only
inspects its `code` field (line 104). -/
structure RemoteError where
  code : String
deriving Repr, DecidableEq

/-- The four state fields of the store (lines 33-36). -/
structure AuthState where
  currentUser : Option User
  userProfile : Option UserProfile
  session : Option Session
  loading : Bool
deriving Repr, DecidableEq

/-- The `useState` initial values (lines 33-36): everything null,
`loading` true. -/
def initialState : AuthState :=
  { currentUser := none, userProfile := none, session := none, loading := true }

/-- Outcome of the profile select (lines 97-101): a `(data, error)` pair
where at most one side is set, or an unexpected exception reaching the
`catch` at line 128. -/
inductive FetchResult where
  | ok (data : Option ProfileRow)
  | err (error : RemoteError)
  | exn
deriving Repr, DecidableEq

/-- Field mapping from a remote row to the cached profile (lines 116-124).
The JS `||` defaults coincide with `Option.getD` here: for `phone` the only
falsy string the inserted data can carry is `""`, whose default is again
`""`; for `favorites`/`interests` an empty array is truthy in JS and is
also what `getD` returns; for `is_paid` both `null` and `false` map to
`false`. -/
def profileOfRow (data : ProfileRow) : UserProfile :=
  { username := data.username
    email := data.email
    phone := data.phone.getD ""
    job := data.job
    interests := data.interests.getD []
    favorites := data.favorites.getD []
    isPaid := data.is_paid.getD false }

/-- `fetchUserProfile` (lines 94-135) as a state transformer. The whole
body sits in `try`/`catch`/`finally`, so the function never throws: on any
error (remote error object of any code, including `PGRST116`, or an
exception) the profile is cleared, and `finally` sets `loading` false on
every path, which is why the result type has no error channel. The
`error.code === 'PGRST116'` test at line 104 only selects a log message and
does not change the state transition. -/
def fetchUserProfile (res : FetchResult) (s : AuthState) : AuthState :=
  match res with
  | .err _ => { s with userProfile := none, loading := false }
  | .exn => { s with userProfile := none, loading := false }
  | .ok (some data) => { s with userProfile := some (profileOfRow data), loading := false }
  | .ok none => { s with userProfile := none, loading := false }

/-- The synchronous writes the `onAuthStateChange` callback performs before
any suspension point (lines 74-75): adopt the event's session and its user
(`session?.user ?? null`). -/
def eventSyncPhase (sess : Option Session) (s : AuthState) : AuthState :=
  { s with session := sess, currentUser := sess.bind Session.user }

/-- The `onAuthStateChange` callback (lines 69-86), run to completion on
one event: if the liveness flag is already false on entry the callback
returns at line 72; otherwise it adopts the session, then either awaits the
profile fetch (when `session?.user` is truthy) or clears the profile and
the loading flag. `fetchRes` is the remote response the fetch receives. -/
def handleAuthEvent (mounted : Bool) (sess : Option Session) (fetchRes : FetchResult)
    (s : AuthState) : AuthState :=
  if mounted = false then s
  else
    let s1 := eventSyncPhase sess s
    match sess.bind Session.user with
    | some _ => fetchUserProfile fetchRes s1
    | none => { s1 with userProfile := none, loading := false }

/-- One session-change event as delivered to the subscription callback:
the liveness flag at entry, the event's session, and the response the
triggered profile fetch (if any) receives. -/
structure AuthEvent where
  mounted : Bool
  sess : Option Session
  fetchRes : FetchResult
deriving Repr, DecidableEq

/-- Run a sequence of session-change events from a state, each handled to
completion before the next (the settled, sequential schedule). -/
def runEvents (evs : List AuthEvent) (s : AuthState) : AuthState :=
  evs.foldl (fun st e => handleAuthEvent e.mounted e.sess e.fetchRes st) s

/-- A write issued against the remote `user_profiles` table: the favorites
update at lines 211-214, the subscription update at lines 228-231, or the
signup insert at lines 154-165. -/
inductive RemoteWrite where
  | updateFavorites (user_id : String) (favorites : List String)
  | updateIsPaid (user_id : String) (is_paid : Bool)
  | insertProfile (row : ProfileRow)
deriving Repr, DecidableEq

deriving instance DecidableEq for Except

/-- Result of running one mutation operation: whether it returned normally
or threw, the store state afterwards, and the remote writes it issued. -/
structure OpResult where
  result : Except RemoteError Unit
  state : AuthState
  writes : List RemoteWrite
deriving Repr, DecidableEq

/-- The new favorites list computed at lines 206-209: remove `toolId` when
`includes` finds it, else append. (`userProfile.favorites || []` at line
206 is the identity here since the field is non-nullable.) -/
def newFavorites (favorites : List String) (toolId : String) : List String :=
  if favorites.contains toolId then favorites.filter (fun id => id != toolId)
  else favorites ++ [toolId]

/-- `toggleFavorite` (lines 203-223). `writeRes` is the outcome of the
remote update (`none` = success): on the guard at line 204 it is a no-op,
on write failure it re-throws leaving the cache untouched, on success it
replaces the cached profile's favorites. -/
def toggleFavorite (toolId : String) (writeRes : Option RemoteError)
    (s : AuthState) : OpResult :=
  match s.currentUser, s.userProfile with
  | some user, some profile =>
    let favs := newFavorites profile.favorites toolId
    let w := RemoteWrite.updateFavorites user.id favs
    match writeRes with
    | some e => { result := .error e, state := s, writes := [w] }
    | none =>
      { result := .ok ()
        state := { s with userProfile := some { profile with favorites := favs } }
        writes := [w] }
  | _, _ => { result := .ok (), state := s, writes := [] }

/-- `updateSubscription` (lines 225-240), analogous to `toggleFavorite`:
guard, remote write of `is_paid`, rethrow on failure, cache update only on
success. -/
def updateSubscription (isPaid : Bool) (writeRes : Option RemoteError)
    (s : AuthState) : OpResult :=
  match s.currentUser, s.userProfile with
  | some user, some profile =>
    let w := RemoteWrite.updateIsPaid user.id isPaid
    match writeRes with
    | some e => { result := .error e, state := s, writes := [w] }
    | none =>
      { result := .ok ()
        state := { s with userProfile := some { profile with isPaid := isPaid } }
        writes := [w] }
  | _, _ => { result := .ok (), state := s, writes := [] }

/-- The `profile` argument of `signup`: `Omit<UserProfile, favorites and
isPaid>` (lines 137-141). -/
structure SignupInput where
  username : String
  email : String
  phone : String
  job : String
  interests : List String
deriving Repr, DecidableEq

/-- Outcome of the remote `auth.signUp` call (lines 143-146): an error, or
a payload whose `user` may be null. -/
inductive SignUpResult where
  | ok (user : Option User)
  | err (e : RemoteError)
deriving Repr, DecidableEq

/-- `signup` (lines 137-174): re-throws a signUp error; when a user is
returned, inserts the profile row built at lines 156-165 (supplied fields
plus `favorites := []`, `is_paid := false`), re-throwing an insert error.
It writes no local state (lines 33-36 fields untouched); it returns the
list of remote writes issued. -/
def signup (email password : String) (profile : SignupInput) (signUpRes : SignUpResult)
    (insertRes : Option RemoteError) : Except RemoteError (List RemoteWrite) :=
  match signUpRes with
  | .err e => .error e
  | .ok none => .ok []
  | .ok (some user) =>
    let row : ProfileRow :=
      { user_id := user.id
        username := profile.username
        email := profile.email
        phone := some profile.phone
        job := profile.job
        interests := some profile.interests
        favorites := some []
        is_paid := some false }
    match insertRes with
    | some e => .error e
    | none => .ok [RemoteWrite.insertProfile row]

/-- `useAuth` (lines 24-30): reads the context; when it is `undefined`
(no enclosing `AuthProvider`) it throws, else it returns the context
value. The context value is modelled by its state snapshot. -/
def useAuth (context : Option AuthState) : Except String AuthState :=
  match context with
  | none => .error "useAuth must be used within an AuthProvider"
  | some c => .ok c

/-! Concrete fixtures used by counterexamples and witnesses. -/

/-- A sample signed-in principal. -/
def sampleUser : User := { id := "u1" }

/-- A sample session carrying `sampleUser`. -/
def sampleSession : Session := { user := some sampleUser }

/-- A sample cached profile with the given favorites list. -/
def sampleProfile (favorites : List String) : UserProfile :=
  { username := "a", email := "e@x.com", phone := "", job := "j"
    interests := ["x"], favorites := favorites, isPaid := false }

/-- A sample remote row for `sampleUser`. -/
def sampleRow : ProfileRow :=
  { user_id := "u1", username := "a", email := "e@x.com", phone := some ""
    job := "j", interests := some ["x"], favorites := some [], is_paid := some false }

/-- A store state with `sampleUser` signed in and a cached profile holding
the given favorites list. -/
def sampleState (favorites : List String) : AuthState :=
  { currentUser := some sampleUser, userProfile := some (sampleProfile favorites)
    session := some sampleSession, loading := false }

/-! Helper lemmas. -/

/-- `fetchUserProfile` never writes `currentUser` (it only calls
`setUserProfile` and `setLoading`). -/
theorem fetchUserProfile_currentUser (r : FetchResult) (s : AuthState) :
    (fetchUserProfile r s).currentUser = s.currentUser := by
  cases r with
  | ok d => cases d <;> rfl
  | err e => rfl
  | exn => rfl

/-- One handled event preserves the profile-implies-identity property. -/
theorem handleAuthEvent_preserves (m : Bool) (sess : Option Session) (r : FetchResult)
    (s : AuthState) (h : s.userProfile.isSome = true → s.currentUser.isSome = true) :
    (handleAuthEvent m sess r s).userProfile.isSome = true →
      (handleAuthEvent m sess r s).currentUser.isSome = true := by
  cases m with
  | false => simpa [handleAuthEvent] using h
  | true =>
    cases hsu : sess.bind Session.user with
    | some u =>
      intro _
      have hcu : (handleAuthEvent true sess r s).currentUser = some u := by
        simp [handleAuthEvent, hsu, fetchUserProfile_currentUser, eventSyncPhase]
      simp [hcu]
    | none =>
      intro hps
      have hnp : (handleAuthEvent true sess r s).userProfile = none := by
        simp [handleAuthEvent, hsu]
      simp [hnp] at hps

/-- Any event sequence preserves the profile-implies-identity property. -/
theorem runEvents_preserves (evs : List AuthEvent) : ∀ s : AuthState,
    (s.userProfile.isSome = true → s.currentUser.isSome = true) →
    ((runEvents evs s).userProfile.isSome = true →
      (runEvents evs s).currentUser.isSome = true) := by
  induction evs with
  | nil => intro s h; exact h
  | cons e rest ih =>
    intro s h
    exact ih _ (handleAuthEvent_preserves e.mounted e.sess e.fetchRes s h)

/-- C1: for every sequence of session-change events handled to completion
from the initial state, the cached Profile is non-null only if the cached
Identity is non-null. -/
theorem runEvents_profile_only_if_identity (evs : List AuthEvent)
    (h : ((runEvents evs initialState).userProfile).isSome = true) :
    ((runEvents evs initialState).currentUser).isSome = true :=
  runEvents_preserves evs initialState (by simp [initialState]) h

/-- Witness for C1: a sign-in event whose fetch succeeds yields a non-null
profile, and the theorem then yields a non-null identity. -/
theorem runEvents_profile_only_if_identity_witness :
    ((runEvents [{ mounted := true, sess := some sampleSession
                   fetchRes := .ok (some sampleRow) }] initialState).currentUser).isSome = true :=
  runEvents_profile_only_if_identity
    [{ mounted := true, sess := some sampleSession, fetchRes := .ok (some sampleRow) }]
    (by decide)

/-- C7: a profile fetch answered with the no-rows error code `PGRST116`
settles with Profile null and Loading false; no error is surfaced to the
caller, which the embedding reflects in the result type of
`fetchUserProfile`: the source wraps the body in try/catch/finally and
returns on the error branch, so the function cannot throw. -/
theorem fetchUserProfile_noRows_benign (s : AuthState) :
    (fetchUserProfile (.err { code := "PGRST116" }) s).userProfile = none ∧
    (fetchUserProfile (.err { code := "PGRST116" }) s).loading = false := by
  constructor <;> rfl

/-- C10: `useAuth` called where the context value is undefined (no
enclosing `AuthProvider`) throws rather than returning a state object. -/
theorem useAuth_throws_without_provider :
    useAuth none = .error "useAuth must be used within an AuthProvider" := rfl

/-- C8: with Identity null or Profile null, `toggleFavorite` and
`updateSubscription` are no-ops: result is normal return (no throw), no
remote write is issued, and the whole state (all four fields) is
unchanged. -/
theorem mutations_noop_without_user_or_profile (s : AuthState) (toolId : String)
    (b : Bool) (w : Option RemoteError)
    (h : s.currentUser = none ∨ s.userProfile = none) :
    toggleFavorite toolId w s = { result := .ok (), state := s, writes := [] } ∧
    updateSubscription b w s = { result := .ok (), state := s, writes := [] } := by
  cases hcu : s.currentUser with
  | none => constructor <;> simp [toggleFavorite, updateSubscription, hcu]
  | some u =>
    cases hup : s.userProfile with
    | none => constructor <;> simp [toggleFavorite, updateSubscription, hcu, hup]
    | some p => simp [hcu, hup] at h

/-- Witness for C8: the signed-out initial state has no Identity, and both
operations leave it untouched without writes. -/
theorem mutations_noop_without_user_or_profile_witness :
    toggleFavorite "t1" none initialState =
      { result := .ok (), state := initialState, writes := [] } ∧
    updateSubscription true none initialState =
      { result := .ok (), state := initialState, writes := [] } :=
  mutations_noop_without_user_or_profile initialState "t1" true none (Or.inl rfl)

/-- C5: when the remote write fails, `toggleFavorite` and
`updateSubscription` re-throw the remote error and leave the cached state
(profile included, hence its favorites and isPaid fields) completely
unchanged; the cache is written only on the success branch. -/
theorem write_failure_rethrows_and_preserves_state (s : AuthState) (u : User)
    (p : UserProfile) (toolId : String) (b : Bool) (e : RemoteError)
    (hu : s.currentUser = some u) (hp : s.userProfile = some p) :
    (toggleFavorite toolId (some e) s).result = .error e ∧
    (toggleFavorite toolId (some e) s).state = s ∧
    (updateSubscription b (some e) s).result = .error e ∧
    (updateSubscription b (some e) s).state = s := by
  refine ⟨?_, ?_, ?_, ?_⟩ <;> simp [toggleFavorite, updateSubscription, hu, hp]

/-- Witness for C5: a failing write against a populated state throws the
error and preserves the state. -/
theorem write_failure_rethrows_and_preserves_state_witness :
    (toggleFavorite "t1" (some { code := "X" }) (sampleState ["t1"])).result =
      .error { code := "X" } ∧
    (toggleFavorite "t1" (some { code := "X" }) (sampleState ["t1"])).state =
      sampleState ["t1"] ∧
    (updateSubscription true (some { code := "X" }) (sampleState ["t1"])).result =
      .error { code := "X" } ∧
    (updateSubscription true (some { code := "X" }) (sampleState ["t1"])).state =
      sampleState ["t1"] :=
  write_failure_rethrows_and_preserves_state (sampleState ["t1"]) sampleUser
    (sampleProfile ["t1"]) "t1" true { code := "X" } rfl rfl

/-- Observer: the favorites list of the cached profile, empty when no
profile is cached. -/
def cachedFavorites (s : AuthState) : List String :=
  match s.userProfile with
  | some p => p.favorites
  | none => []

/-- Unfolding of `newFavorites` when the id is a member of the list. -/
theorem newFavorites_of_mem {F : List String} {X : String} (h : X ∈ F) :
    newFavorites F X = F.filter (fun id => id != X) := by
  simp [newFavorites, List.contains, h]

/-- Unfolding of `newFavorites` when the id is not a member of the list. -/
theorem newFavorites_of_not_mem {F : List String} {X : String} (h : X ∉ F) :
    newFavorites F X = F ++ [X] := by
  simp [newFavorites, List.contains, h]

/-- Membership in the favorites list after toggling the same id twice. -/
theorem mem_newFavorites_twice (F : List String) (X y : String) :
    y ∈ newFavorites (newFavorites F X) X ↔ y ∈ F := by
  by_cases hX : X ∈ F
  · have h2 : X ∉ F.filter (fun id => id != X) := by simp [List.mem_filter]
    rw [newFavorites_of_mem hX, newFavorites_of_not_mem h2]
    simp only [List.mem_append, List.mem_filter, List.mem_singleton, bne_iff_ne]
    constructor
    · rintro (⟨hyF, _⟩ | rfl)
      · exact hyF
      · exact hX
    · intro hyF
      by_cases hy : y = X
      · exact Or.inr hy
      · exact Or.inl ⟨hyF, hy⟩
  · have h2 : X ∈ F ++ [X] := by simp
    rw [newFavorites_of_not_mem hX, newFavorites_of_mem h2]
    have h3 : (F ++ [X]).filter (fun id => id != X) = F := by
      rw [List.filter_append]
      have h4 : F.filter (fun id => id != X) = F :=
        List.filter_eq_self.mpr
          (fun a ha => by simp only [bne_iff_ne, ne_eq, decide_not, Bool.not_eq_eq_eq_not,
            Bool.not_true, decide_eq_false_iff_not]; exact fun he => hX (he ▸ ha))
      simp [h4]
    rw [h3]

/-- The member set of the favorites list is restored by a double toggle. -/
theorem toFinset_newFavorites_twice (F : List String) (X : String) :
    (newFavorites (newFavorites F X) X).toFinset = F.toFinset := by
  ext y
  simp only [List.mem_toFinset]
  exact mem_newFavorites_twice F X y

/-- A single toggle keeps the favorites list duplicate-free. -/
theorem nodup_newFavorites {F : List String} (X : String) (h : F.Nodup) :
    (newFavorites F X).Nodup := by
  by_cases hX : X ∈ F
  · rw [newFavorites_of_mem hX]
    exact h.filter _
  · rw [newFavorites_of_not_mem hX]
    rw [List.nodup_append]
    exact ⟨h, List.nodup_singleton X, fun a ha hax => hX ((List.mem_singleton.mp hax) ▸ ha)⟩

/-- On a populated state, a successful toggle replaces the cached profile
by the same profile with the recomputed favorites list. -/
theorem toggleFavorite_success_state (s : AuthState) (u : User) (p : UserProfile)
    (toolId : String) (hu : s.currentUser = some u) (hp : s.userProfile = some p) :
    (toggleFavorite toolId none s).state =
      { s with userProfile := some { p with favorites := newFavorites p.favorites toolId } } := by
  simp [toggleFavorite, hu, hp]

/-- C2 counterexample: with favorites ["a", "b"], toggling "a" twice (each
call awaited, both writes succeeding) settles with favorites ["b", "a"],
which is not the original list. -/
theorem toggleFavorite_twice_changes_list :
    ((toggleFavorite "a" none ((toggleFavorite "a" none (sampleState ["a", "b"])).state)).state).userProfile =
      some (sampleProfile ["b", "a"]) ∧
    sampleProfile ["b", "a"] ≠ sampleProfile ["a", "b"] ∧
    (sampleState ["a", "b"]).userProfile = some (sampleProfile ["a", "b"]) := by decide

/-- C2 (amended): toggling the same id twice in a row, each call awaited
and both remote writes succeeding, settles with a cached favorites list
holding exactly the same members as the original list; equality as ordered
lists can fail because the remove-then-append path moves the id to the
end. -/
theorem toggleFavorite_twice_same_members (s : AuthState) (u : User) (p : UserProfile)
    (toolId : String) (hu : s.currentUser = some u) (hp : s.userProfile = some p) :
    (cachedFavorites ((toggleFavorite toolId none ((toggleFavorite toolId none s).state)).state)).toFinset =
      p.favorites.toFinset := by
  have h1 := toggleFavorite_success_state s u p toolId hu hp
  have h2 := toggleFavorite_success_state
    ({ s with userProfile := some { p with favorites := newFavorites p.favorites toolId } })
    u { p with favorites := newFavorites p.favorites toolId } toolId (by simpa using hu) rfl
  rw [h1, h2]
  simp only [cachedFavorites]
  exact toFinset_newFavorites_twice p.favorites toolId

/-- Witness for C2 (amended): a concrete double toggle preserving the
member set. -/
theorem toggleFavorite_twice_same_members_witness :
    (cachedFavorites ((toggleFavorite "t1" none ((toggleFavorite "t1" none (sampleState ["t1"])).state)).state)).toFinset =
      (sampleProfile ["t1"]).favorites.toFinset :=
  toggleFavorite_twice_same_members (sampleState ["t1"]) sampleUser (sampleProfile ["t1"])
    "t1" rfl rfl

/-- C3 counterexample: starting from favorites ["a", "a"], toggling "b"
settles with favorites ["a", "a", "b"], in which "a" occurs twice, so a
toggle from an arbitrary starting list need not leave each id at most
once. -/
theorem toggleFavorite_duplicate_survives :
    cachedFavorites ((toggleFavorite "b" none (sampleState ["a", "a"])).state) = ["a", "a", "b"] ∧
    (["a", "a", "b"].count "a") = 2 := by decide

/-- C3 (amended): after a successful toggle the cached favorites list
contains each id at most once, provided the starting list did; for a
starting list already carrying a duplicate the duplicate survives, as the
counterexample records. -/
theorem toggleFavorite_preserves_nodup (s : AuthState) (u : User) (p : UserProfile)
    (toolId : String) (hu : s.currentUser = some u) (hp : s.userProfile = some p)
    (hnd : p.favorites.Nodup) :
    (cachedFavorites ((toggleFavorite toolId none s).state)).Nodup := by
  rw [toggleFavorite_success_state s u p toolId hu hp]
  simp only [cachedFavorites]
  exact nodup_newFavorites toolId hnd

/-- Witness for C3 (amended): a concrete toggle on a duplicate-free list
leaves a duplicate-free list. -/
theorem toggleFavorite_preserves_nodup_witness :
    (cachedFavorites ((toggleFavorite "t2" none (sampleState ["t1"])).state)).Nodup :=
  toggleFavorite_preserves_nodup (sampleState ["t1"]) sampleUser (sampleProfile ["t1"])
    "t2" rfl rfl (by decide)

/-- C4: `toggleFavorite` computes the new cached favorites list by
removing the id when it is a member of the current list (membership by
exact id equality) and appending it otherwise; on favorites ["t1"],
toggling "t1" yields [] and toggling "t2" yields ["t1", "t2"]. -/
theorem toggleFavorite_remove_or_append (s : AuthState) (u : User) (p : UserProfile)
    (toolId : String) (hu : s.currentUser = some u) (hp : s.userProfile = some p) :
    cachedFavorites ((toggleFavorite toolId none s).state) =
      (if toolId ∈ p.favorites then p.favorites.filter (fun id => id != toolId)
       else p.favorites ++ [toolId]) ∧
    cachedFavorites ((toggleFavorite "t1" none (sampleState ["t1"])).state) = [] ∧
    cachedFavorites ((toggleFavorite "t2" none (sampleState ["t1"])).state) = ["t1", "t2"] := by
  refine ⟨?_, by decide, by decide⟩
  rw [toggleFavorite_success_state s u p toolId hu hp]
  simp only [cachedFavorites]
  by_cases hX : toolId ∈ p.favorites
  · rw [newFavorites_of_mem hX, if_pos hX]
  · rw [newFavorites_of_not_mem hX, if_neg hX]

/-- Witness for C4: the characterization evaluated on favorites ["t1"]
toggled with "t1". -/
theorem toggleFavorite_remove_or_append_witness :
    (cachedFavorites ((toggleFavorite "t1" none (sampleState ["t1"])).state) =
      (if "t1" ∈ (sampleProfile ["t1"]).favorites
       then (sampleProfile ["t1"]).favorites.filter (fun id => id != "t1")
       else (sampleProfile ["t1"]).favorites ++ ["t1"])) ∧
    cachedFavorites ((toggleFavorite "t1" none (sampleState ["t1"])).state) = [] ∧
    cachedFavorites ((toggleFavorite "t2" none (sampleState ["t1"])).state) = ["t1", "t2"] :=
  toggleFavorite_remove_or_append (sampleState ["t1"]) sampleUser (sampleProfile ["t1"])
    "t1" rfl rfl

/-- C6 (demonstration of the divergence): the source's `fetchUserProfile`
(lines 94-135) writes `userProfile` and `loading` without consulting the
`mounted` liveness flag — its embedding takes no such flag because the
source checks none — so the continuation of a profile fetch in flight at
teardown still writes state: here an event's synchronous phase runs while
`mounted` is still true, teardown then flips the flag and unsubscribes,
and the already-pending fetch continuation nevertheless writes both the
profile and the loading flag. -/
theorem fetch_continuation_writes_after_teardown :
    (fetchUserProfile (.ok (some sampleRow)) (eventSyncPhase (some sampleSession) initialState)).userProfile =
      some (profileOfRow sampleRow) ∧
    (eventSyncPhase (some sampleSession) initialState).userProfile = none ∧
    (fetchUserProfile (.ok (some sampleRow)) (eventSyncPhase (some sampleSession) initialState)).loading = false ∧
    (eventSyncPhase (some sampleSession) initialState).loading = true := by
  exact ⟨rfl, rfl, rfl, rfl⟩

/-- C9: signup with profile fields {username "a", email "e@x.com",
phone "", job "j", interests ["x"]} and a returned user inserts exactly
`sampleRow` (the supplied fields plus favorites=[] and is_paid=false), and
a subsequent successful fetch of that row caches the Profile with those
fields plus favorites=[] and isPaid=false. -/
theorem signup_roundtrip :
    signup "e@x.com" "pw"
        { username := "a", email := "e@x.com", phone := "", job := "j", interests := ["x"] }
        (.ok (some sampleUser)) none = .ok [RemoteWrite.insertProfile sampleRow] ∧
    (fetchUserProfile (.ok (some sampleRow)) initialState).userProfile = some (sampleProfile []) := by
  exact ⟨rfl, rfl⟩

end AuthCtx
